import Mathlib

/-!
Shallow embedding of the AFRICA_ENERGY_PIPELINE ingestion core.

Two ingestion entry points exist in the repository:
- the strict pipeline in `src/energy_data_processor.py` (four-entry indicator
  table, unmapped indicators dropped, `NULL` sentinel and try/except around
  `float`, delete-before-insert guarded by a non-empty document list, early
  return of the validator on the empty batch), and
- the lenient pipeline in `src/ENERGY_DATA_ETRACTION/energy_data_processor.py`
  (one-entry table with a passthrough default, no `NULL` sentinel, no
  try/except around `float`, insert without any delete, no empty-batch guard
  in the validator).

Definitions suffixed `Lenient` embed the second file; all others embed the
first. Numeric cell values are modelled as exact rationals (`ℚ`); Python's
binary floating point representation is abstracted to exact arithmetic, and
`round(x, 2)` is modelled as round-half-to-even on rationals, matching
Python's rounding rule on exact values.
-/

/-- A CSV cell as delivered by the CSV reader to the row normalizer:
either missing (pandas NaN), a text cell, or a numeric cell. -/
inductive Cell where
  | nan : Cell
  | str : String → Cell
  | num : ℚ → Cell
deriving DecidableEq

/-- Numeric value of a list of decimal digit characters, most significant
first: the accumulator model of Python `int`/`float` digit reading. -/
def digitsVal (cs : List Char) : Nat :=
  cs.foldl (fun n c => 10 * n + (c.toNat - 48)) 0

/-- Core of the model of Python `float()` on an unsigned literal: digits with
an optional decimal point (`"12"`, `"12."`, `"12.5"`, `".5"`), returned as a
numerator/denominator pair.  Exponents, `inf`/`nan` and surrounding
whitespace are not modelled; the claims only quantify over parses through
this function. -/
def pyFloatCore (cs : List Char) : Option (Nat × Nat) :=
  let intPart := cs.takeWhile Char.isDigit
  let rest := cs.dropWhile Char.isDigit
  match rest with
  | [] => if intPart.isEmpty then none else some (digitsVal intPart, 1)
  | '.' :: fr =>
      if fr.all Char.isDigit && (!intPart.isEmpty || !fr.isEmpty) then
        some (digitsVal intPart * 10 ^ fr.length + digitsVal fr, 10 ^ fr.length)
      else none
  | _ => none

/-- Model of Python `float(s)` on a string: optional sign then `pyFloatCore`;
`none` models a raised `ValueError`. -/
def pyFloat? (s : String) : Option ℚ :=
  match s.toList with
  | '-' :: r => (pyFloatCore r).map (fun p => mkRat (-(p.1 : Int)) p.2)
  | '+' :: r => (pyFloatCore r).map (fun p => mkRat p.1 p.2)
  | r => (pyFloatCore r).map (fun p => mkRat p.1 p.2)

/-- Year-cell coercion of the strict processor
(`src/energy_data_processor.py` lines 164-174): missing, empty and `"NULL"`
cells store null; otherwise `float(value)` is attempted and a parse failure
is caught locally and stored as null.  (The `unit == "millions"` branch of
the source performs the same `float(value)` call as its else branch, so the
unit does not enter the embedding.)  Total: no exception escapes. -/
def coerceCellStrict (c : Cell) : Option ℚ :=
  match c with
  | Cell.nan => none
  | Cell.str s =>
      if s = "" ∨ s = "NULL" then none
      else match pyFloat? s with
        | some q => some q
        | none => none
  | Cell.num q => some q

/-- Year-cell coercion of the lenient processor
(`src/ENERGY_DATA_ETRACTION/energy_data_processor.py` lines 110-114):
missing and empty cells store null, any other cell is passed to `float`
with no try/except, so a failed parse raises `ValueError` to the caller
(modelled as `Except.error ()`). -/
def coerceCellLenient (c : Cell) : Except Unit (Option ℚ) :=
  match c with
  | Cell.nan => Except.ok none
  | Cell.str s =>
      if s = "" then Except.ok none
      else match pyFloat? s with
        | some q => Except.ok (some q)
        | none => Except.error ()
  | Cell.num q => Except.ok (some q)

/-- The fixed country registry `AFRICAN_COUNTRIES` (identical in both
source files). -/
def AFRICAN_COUNTRIES : List String := [
  "Algeria", "Angola", "Benin", "Botswana", "Burkina Faso", "Burundi",
  "Cameroon", "Cape Verde", "Central African Republic", "Chad", "Comoros",
  "Congo Democratic Republic", "Congo Republic", "Cote d\x27Ivoire",
  "Djibouti", "Egypt", "Equatorial Guinea", "Eritrea", "Eswatini", "Ethiopia",
  "Gabon", "Gambia", "Ghana", "Guinea", "Guinea Bissau", "Kenya", "Lesotho",
  "Liberia", "Libya", "Madagascar", "Malawi", "Mali", "Mauritania", "Mauritius",
  "Morocco", "Mozambique", "Namibia", "Niger", "Nigeria", "Rwanda",
  "Sao Tome and Principe", "Senegal", "Seychelles", "Sierra Leone", "Somalia",
  "South Africa", "South Sudan", "Sudan", "Tanzania", "Togo", "Tunisia",
  "Uganda", "Zambia", "Zimbabwe"]

/-- `{country: idx + 1 for idx, country in enumerate(AFRICAN_COUNTRIES)}`:
the association list built by the dict comprehension, carrying the running
index so that entry `(c, i + 1)` records that `c` is at 0-based index `i`. -/
def mkCountryMapping : Nat → List String → List (String × Nat)
  | _, [] => []
  | i, c :: rest => (c, i + 1) :: mkCountryMapping (i + 1) rest

def countryMapping : List (String × Nat) := mkCountryMapping 0 AFRICAN_COUNTRIES

/-- Python dict lookup with default (`dict.get(k, d)`): on duplicate keys the
comprehension keeps the last binding, hence the search over the reversed
association list. -/
def dictGetD (m : List (String × Nat)) (k : String) (d : Nat) : Nat :=
  match m.reverse.find? (fun p => p.1 == k) with
  | some p => p.2
  | none => d

/-- `CSVDataProcessor._get_country_serial`
(`src/energy_data_processor.py` lines 127-129). -/
def serial_of (country_name : String) : Nat :=
  dictGetD countryMapping country_name 0

/-- One value row of the canonical indicator table `INDICATOR_MAPPING`. -/
structure IndicatorConfig where
  metric : String
  unit : String
  sector : String
  sub_sector : String
  sub_sub_sector : String
deriving DecidableEq

/-- The canonical indicator table of the strict pipeline
(`src/energy_data_processor.py` lines 45-74), as an association list. -/
def INDICATOR_MAPPING : List (String × IndicatorConfig) := [
  ("Population access to electricity-National (% of population)",
    ⟨"Electricity Access Rate", "%", "Power", "Access", "National"⟩),
  ("Energy: Population with access to clean cooking fuels (% of population)",
    ⟨"Clean Cooking Access Rate", "%", "Energy", "Access", "Clean Cooking"⟩),
  ("Energy: Population without access to clean cooking fuels (millions of people)",
    ⟨"Clean Cooking Access Gap", "millions", "Energy", "Access Gap", "Clean Cooking"⟩),
  ("Energy intensity level of primary energy (MJ/2017 PPP GDP)",
    ⟨"Energy Intensity", "MJ/2017 PPP GDP", "Energy Efficiency", "Intensity", "Primary Energy"⟩)]

/-- One CSV row as delivered by the CSV reader: the `Country` and `Indicator`
columns plus the remaining cells as an association list keyed by column
name. -/
structure Row where
  country : String
  indicator : String
  cells : List (String × Cell)
deriving DecidableEq

/-- `row[col]`: cell lookup; a column absent from the row reads as missing. -/
def getCell (r : Row) (col : String) : Cell :=
  match r.cells.find? (fun p => p.1 == col) with
  | some p => p.2
  | none => Cell.nan

/-- The in-memory CSV: the column list and the rows. -/
structure CSVData where
  columns : List String
  rows : List Row
deriving DecidableEq

/-- Python `str.isdigit`: non-empty and every character a digit. -/
def isDigitStr (s : String) : Bool :=
  !s.isEmpty && s.toList.all Char.isDigit

/-- `int(s)` on an all-digit string. -/
def strNat (s : String) : Nat := digitsVal s.toList

/-- `col.isdigit() and 2000 <= int(col) <= 2024`: the year-column test of
`transform_to_mongodb_format`. -/
def isYearCol (col : String) : Bool :=
  isDigitStr col && decide (2000 ≤ strNat col) && decide (strNat col ≤ 2024)

/-- `year_columns` (`src/energy_data_processor.py` line 162): the columns of
the CSV that qualify as year columns. -/
def yearColumns (columns : List String) : List String :=
  columns.filter isYearCol

/-- A canonical MongoDB document as produced by the strict transform: the
fixed metadata fields plus one entry per qualifying year column, holding
the coerced value (`none` models the stored Python `None`). -/
structure Document where
  country : String
  country_serial : Nat
  metric : String
  unit : String
  sector : String
  sub_sector : String
  sub_sub_sector : String
  source_link : String
  source : String
  years : List (String × Option ℚ)
deriving DecidableEq

/-- The per-row body of `CSVDataProcessor.transform_to_mongodb_format`
(`src/energy_data_processor.py` lines 140-176): rows whose indicator is not
a key of `INDICATOR_MAPPING` are skipped (`continue`), mapped rows become a
document whose year entries cover exactly `yearColumns columns`. -/
def normalizeRow (columns : List String) (r : Row) : Option Document :=
  match INDICATOR_MAPPING.find? (fun p => p.1 == r.indicator) with
  | none => none
  | some p =>
      some {
        country := r.country
        country_serial := serial_of r.country
        metric := p.2.metric
        unit := p.2.unit
        sector := p.2.sector
        sub_sector := p.2.sub_sector
        sub_sub_sector := p.2.sub_sub_sector
        source_link := "Africa Energy Portal Dataset"
        source := "World Bank/International Energy Agency"
        years := (yearColumns columns).map
          (fun col => (col, coerceCellStrict (getCell r col))) }

/-- `transform_to_mongodb_format`: every CSV row through `normalizeRow`,
dropped rows omitted. -/
def transform (csv : CSVData) : List Document :=
  csv.rows.filterMap (normalizeRow csv.columns)

/-- An operation issued against the MongoDB collection during step 6 of the
strict `main`. -/
inductive StoreOp where
  | deleteAll : StoreOp
  | insertMany : List Document → StoreOp
deriving DecidableEq

/-- Effect of one store operation on the collection contents
(`delete_many({})` and `insert_many`). -/
def applyOp (store : List Document) : StoreOp → List Document
  | StoreOp.deleteAll => []
  | StoreOp.insertMany ds => store ++ ds

/-- `mongodb_documents[i:i + 50]` batching of the strict `main`
(lines 267-270): the document list in chunks of 50. -/
def chunks50 : List Document → List (List Document)
  | [] => []
  | d :: ds => ((d :: ds).take 50) :: chunks50 ((d :: ds).drop 50)
termination_by l => l.length
decreasing_by simp [List.length_drop]; omega

/-- The store operations step 6 of the strict `main` issues
(`src/energy_data_processor.py` lines 263-271): nothing when the transform
produced no documents, otherwise a delete of everything followed by the
batched inserts. -/
def storeOps (docs : List Document) : List StoreOp :=
  if docs.isEmpty then []
  else StoreOp.deleteAll :: (chunks50 docs).map StoreOp.insertMany

/-- Collection contents after step 6 of the strict `main`, starting from the
prior contents. -/
def runStorePhase (prior docs : List Document) : List Document :=
  (storeOps docs).foldl applyOp prior

/-- Collection contents after the store step of the lenient `main`
(`src/ENERGY_DATA_ETRACTION/energy_data_processor.py` line 200): one
`insert_many`, no delete. -/
def runStorePhaseLenient (prior docs : List Document) : List Document :=
  applyOp prior (StoreOp.insertMany docs)

/-- Round half to even of the fraction `n / d` (`d > 0`), the rounding rule
of Python `round` on exact values: `f` is the floor, `r` the remainder, and
ties go to the even neighbour. -/
def rheInt (n d : Int) : Int :=
  let f := Int.fdiv n d
  let r := n - f * d
  if 2 * r < d then f
  else if 2 * r > d then f + 1
  else if f % 2 = 0 then f else f + 1

/-- Model of Python `round(q, 2)` on an exact rational: round half to even
at two decimal places. -/
def round2 (q : ℚ) : ℚ :=
  mkRat (rheInt (q.num * 100) q.den) 100

/-- `round((count / total) * 100, 2)`, the percentage computation the
validator performs; `(count / total) * 100` is the exact rational
`count * 100 / total`, built with `mkRat` so the definition evaluates. -/
def pct (count total : Nat) : ℚ :=
  round2 (mkRat (count * 100) total)

/-- `required_years = [str(year) for year in range(2000, 2023)]` of the
strict validator (`src/energy_data_processor.py` line 212). -/
def requiredYears : List String :=
  (List.range' 2000 23).map (fun year => toString year)

/-- `required_years = [str(year) for year in range(2000, 2025)]` of the
lenient validator (`src/ENERGY_DATA_ETRACTION/energy_data_processor.py`
line 144). -/
def requiredYearsLenient : List String :=
  (List.range' 2000 25).map (fun year => toString year)

/-- `year in record and record[year] is not None`, restricted to the year
entries of the document: the metadata keys of a record (`country`,
`metric`, ...) are never all-digit strings, so for the year strings the
validator probes this restriction is exact. -/
def docYearNonNull (d : Document) (y : String) : Bool :=
  match d.years.find? (fun p => p.1 == y) with
  | some (_, some _) => true
  | _ => false

/-- `sum(1 for record in data if year in record and record[year] is not None)`. -/
def countNonNull (y : String) (data : List Document) : Nat :=
  data.countP (fun d => docYearNonNull d y)

/-- `available_data_points` accumulated over the strict validator's year
loop. -/
def availableDataPoints (data : List Document) : Nat :=
  (requiredYears.map (fun y => countNonNull y data)).sum

/-- `total_possible_data_points = len(data) * len(required_years)`. -/
def totalPossibleDataPoints (data : List Document) : Nat :=
  data.length * requiredYears.length

/-- One `metrics_coverage` entry of the validation report. -/
structure MetricCov where
  total : Nat
  available : Nat
  coverage_percentage : ℚ
deriving DecidableEq

/-- One `year_coverage` entry of the validation report. -/
structure YearCov where
  total_records : Nat
  available_data : Nat
  coverage_percentage : ℚ
deriving DecidableEq

/-- The strict validator's report (`src/energy_data_processor.py`
lines 183-191); `processed_countries` is a Python set, modelled as a
deduplicated list. -/
structure ValidationReport where
  total_countries : Nat
  processed_countries : List String
  missing_countries : List String
  metrics_coverage : List (String × MetricCov)
  year_coverage : List (String × YearCov)
  completeness_score : ℚ
  total_documents : Nat
deriving DecidableEq

/-- `DataValidator.validate_data_completeness` of the strict pipeline
(`src/energy_data_processor.py` lines 182-233): early return of the
initial report on the empty batch, otherwise country sets, per-metric
coverage over the fixed registry size, per-year coverage over the required
range, and the guarded overall completeness score. -/
def validate (data : List Document) : ValidationReport :=
  let base : ValidationReport := {
    total_countries := AFRICAN_COUNTRIES.length
    processed_countries := []
    missing_countries := []
    metrics_coverage := []
    year_coverage := []
    completeness_score := 0
    total_documents := data.length }
  if data.isEmpty then base
  else
    let processed := (data.map Document.country).dedup
    let missing := AFRICAN_COUNTRIES.filter (fun c => !processed.contains c)
    let metrics := (data.map Document.metric).dedup
    let mcov := metrics.map (fun m =>
      let count := data.countP (fun r => r.metric == m)
      (m, MetricCov.mk AFRICAN_COUNTRIES.length count (pct count AFRICAN_COUNTRIES.length)))
    let ycov := requiredYears.map (fun y =>
      let c := countNonNull y data
      (y, YearCov.mk data.length c (pct c data.length)))
    let score := if totalPossibleDataPoints data > 0
      then pct (availableDataPoints data) (totalPossibleDataPoints data)
      else 0
    { base with
      processed_countries := processed
      missing_countries := missing
      metrics_coverage := mcov
      year_coverage := ycov
      completeness_score := score }

/-- The lenient validator's report shape: same fields minus
`total_documents`, which only the strict report records. -/
structure ValidationReportL where
  total_countries : Nat
  processed_countries : List String
  missing_countries : List String
  metrics_coverage : List (String × MetricCov)
  year_coverage : List (String × YearCov)
  completeness_score : ℚ
deriving DecidableEq

/-- `count / total` of the lenient year loop, which is unguarded in the
source: a zero denominator is a raised `ZeroDivisionError`, modelled as
`Except.error ()`. -/
def pctChecked (count total : Nat) : Except Unit ℚ :=
  if total = 0 then Except.error () else Except.ok (pct count total)

/-- `DataValidator.validate_data_completeness` of the lenient pipeline
(`src/ENERGY_DATA_ETRACTION/energy_data_processor.py` lines 121-160): no
empty-batch guard, 25 required years, and a division by `len(data)` inside
the year loop that raises on the empty batch before the final
`total_possible_data_points > 0` guard is ever reached. -/
def validateLenient (data : List Document) : Except Unit ValidationReportL := do
  let processed := (data.map Document.country).dedup
  let missing := AFRICAN_COUNTRIES.filter (fun c => !processed.contains c)
  let metrics := (data.map Document.metric).dedup
  let mcov := metrics.map (fun m =>
    let count := data.countP (fun r => r.metric == m)
    (m, MetricCov.mk AFRICAN_COUNTRIES.length count (pct count AFRICAN_COUNTRIES.length)))
  let ycov ← requiredYearsLenient.mapM (fun y => do
    let c := countNonNull y data
    let p ← pctChecked c data.length
    pure (y, YearCov.mk data.length c p))
  let avail := (requiredYearsLenient.map (fun y => countNonNull y data)).sum
  let score := if data.length * requiredYearsLenient.length > 0
    then pct avail (data.length * requiredYearsLenient.length)
    else (0 : ℚ)
  pure {
    total_countries := AFRICAN_COUNTRIES.length
    processed_countries := processed
    missing_countries := missing
    metrics_coverage := mcov
    year_coverage := ycov
    completeness_score := score }

/-- The claim's numerator for the completeness score: over all documents,
the number of required years whose key is present with a non-null value. -/
def claimDataPoints (data : List Document) : Nat :=
  (data.map (fun d => (requiredYears.filter (fun y => docYearNonNull d y)).length)).sum

/-- A document with year entry `(y, v)` appended: models a batch that also
stores a value under an extra year key. -/
def extendYears (y : String) (v : Option ℚ) (d : Document) : Document :=
  { d with years := d.years ++ [(y, v)] }

/-- The two-row scenario CSV of the spec: Kenya with a mapped indicator and
values for 2000 and 2022, Unknownland with the unmapped indicator
`"Not Mapped"`. -/
def csvScenario : CSVData := {
  columns := ["Country", "Indicator", "2000", "2022"]
  rows := [
    { country := "Kenya"
      indicator := "Population access to electricity-National (% of population)"
      cells := [("2000", Cell.num 20), ("2022", Cell.num 75)] },
    { country := "Unknownland", indicator := "Not Mapped"
      cells := [("2000", Cell.num 5)] }] }

/-- A CSV whose single row carries an indicator outside the canonical table:
the strict transform produces no documents from it. -/
def csvUnmapped : CSVData := {
  columns := ["Country", "Indicator", "2000"]
  rows := [
    { country := "Kenya", indicator := "Not Mapped"
      cells := [("2000", Cell.num 20)] }] }

/-- A CSV with a non-numeric column name `"abc"` and an out-of-range year
column `"1999"` next to a valid year column. -/
def csvW : CSVData := {
  columns := ["Country", "Indicator", "abc", "2000", "1999"]
  rows := [
    { country := "Kenya"
      indicator := "Population access to electricity-National (% of population)"
      cells := [("2000", Cell.str "NULL"), ("abc", Cell.num 1), ("1999", Cell.num 2)] }] }

/-- A concrete canonical document, used as prior collection content and as a
one-document batch. -/
def dPrior : Document := {
  country := "Kenya", country_serial := 26, metric := "Electricity Access Rate"
  unit := "%", sector := "Power", sub_sector := "Access", sub_sub_sector := "National"
  source_link := "Africa Energy Portal Dataset"
  source := "World Bank/International Energy Agency"
  years := [("2000", some 20), ("2022", some 75), ("2005", none)] }

/-- A second concrete document, distinct from `dPrior`. -/
def dNew : Document := {
  country := "Ghana", country_serial := 23, metric := "Clean Cooking Access Rate"
  unit := "%", sector := "Energy", sub_sector := "Access", sub_sub_sector := "Clean Cooking"
  source_link := "Africa Energy Portal Dataset"
  source := "World Bank/International Energy Agency"
  years := [("2000", some 10)] }

/-- One document per registry country, all carrying the same metric: the
batch of the metric-coverage sum check. -/
def batch54 : List Document :=
  AFRICAN_COUNTRIES.map (fun c => {
    country := c, country_serial := serial_of c, metric := "Electricity Access Rate"
    unit := "%", sector := "Power", sub_sector := "Access", sub_sub_sector := "National"
    source_link := "Africa Energy Portal Dataset"
    source := "World Bank/International Energy Agency"
    years := [] })

/-! ## Helper lemmas -/

theorem mkCountryMapping_fst_mem :
    ∀ (i : Nat) (l : List String) (p : String × Nat), p ∈ mkCountryMapping i l → p.1 ∈ l := by
  intro i l
  induction l generalizing i with
  | nil => intro p hp; cases hp
  | cons c rest ih =>
      intro p hp
      simp only [mkCountryMapping] at hp
      rcases List.mem_cons.mp hp with h | h
      · rw [h]; exact List.mem_cons_self _ _
      · exact List.mem_cons_of_mem _ (ih (i + 1) p h)

theorem foldl_insertMany (ls : List (List Document)) :
    ∀ s : List Document, ((ls.map StoreOp.insertMany).foldl applyOp s) = s ++ ls.flatten := by
  induction ls with
  | nil => intro s; simp
  | cons a t ih => intro s; simp [applyOp, ih]

theorem chunks50_flatten : ∀ l : List Document, (chunks50 l).flatten = l
  | [] => by simp [chunks50]
  | d :: ds => by
      unfold chunks50
      simp only [List.flatten_cons]
      rw [chunks50_flatten ((d :: ds).drop 50)]
      exact List.take_append_drop 50 (d :: ds)
termination_by l => l.length
decreasing_by simp [List.length_drop]; omega

/-! ## Claim theorems: registry, cell coercion, transform -/

/-- Claim C5: for every country name at 1-based position `i` of the fixed
registry list, `serial_of` returns `i`; for every name not in the registry
(case and diacritic variants included, since lookup is exact), `serial_of`
returns 0, with no error raised (the function is total). -/
theorem country_serial_spec :
    (∀ i : Nat, i < AFRICAN_COUNTRIES.length →
        serial_of (AFRICAN_COUNTRIES.getD i "") = i + 1)
    ∧ (∀ c : String, c ∉ AFRICAN_COUNTRIES → serial_of c = 0) := by
  constructor
  · decide
  · intro c hc
    unfold serial_of dictGetD
    have hnone : countryMapping.reverse.find? (fun p => p.1 == c) = none := by
      rw [List.find?_eq_none]
      intro p hp hbeq
      have hpc : p.1 = c := by simpa using hbeq
      exact hc (hpc ▸ mkCountryMapping_fst_mem 0 AFRICAN_COUNTRIES p (List.mem_reverse.mp hp))
    rw [hnone]

/-- Witness for C5 at concrete inputs: position 25 (0-based) of the registry
is `"Kenya"` with serial 26, and the case variant `"KENYA"` is not in the
registry and gets serial 0. -/
theorem country_serial_spec_witness :
    (25 < AFRICAN_COUNTRIES.length)
    ∧ serial_of (AFRICAN_COUNTRIES.getD 25 "") = 25 + 1
    ∧ ("KENYA" ∉ AFRICAN_COUNTRIES)
    ∧ serial_of "KENYA" = 0 :=
  ⟨by decide, country_serial_spec.1 25 (by decide),
   by decide, country_serial_spec.2 "KENYA" (by decide)⟩

/-- Counterexample to claim C1 as stated over both cited code sites: the
lenient processor's year-cell coercion raises `ValueError` to the caller on
non-numeric text (here `"abc"`) instead of resolving the failed parse
locally to null. -/
theorem lenientCoerce_raises_on_nonNumeric :
    coerceCellLenient (Cell.str "abc") = Except.error () := rfl

/-- Claim C1 as amended: in the strict processor the stored year value is
null exactly for missing/NaN, empty, `"NULL"` and non-numeric cells, equals
the parsed value for numeric-parsable cells, and the coercion is total (no
exception reaches the caller); in the lenient processor missing and empty
cells store null but a cell whose text fails numeric parsing raises to the
caller. -/
theorem yearCell_null_policy :
    (coerceCellStrict Cell.nan = none)
    ∧ (coerceCellStrict (Cell.str "") = none)
    ∧ (coerceCellStrict (Cell.str "NULL") = none)
    ∧ (∀ s : String, pyFloat? s = none → coerceCellStrict (Cell.str s) = none)
    ∧ (∀ (s : String) (q : ℚ), pyFloat? s = some q → coerceCellStrict (Cell.str s) = some q)
    ∧ (∀ q : ℚ, coerceCellStrict (Cell.num q) = some q)
    ∧ (coerceCellLenient Cell.nan = Except.ok none)
    ∧ (coerceCellLenient (Cell.str "") = Except.ok none)
    ∧ (∀ s : String, s ≠ "" → pyFloat? s = none →
        coerceCellLenient (Cell.str s) = Except.error ()) := by
  refine ⟨rfl, rfl, rfl, ?_, ?_, fun q => rfl, rfl, rfl, ?_⟩
  · intro s h
    show (if s = "" ∨ s = "NULL" then none
        else match pyFloat? s with | some q => some q | none => none) = none
    by_cases h1 : s = "" ∨ s = "NULL"
    · rw [if_pos h1]
    · rw [if_neg h1, h]
  · intro s q h
    show (if s = "" ∨ s = "NULL" then none
        else match pyFloat? s with | some q => some q | none => none) = some q
    have h1 : ¬ (s = "" ∨ s = "NULL") := by
      rintro (rfl | rfl)
      · rw [show pyFloat? "" = none from rfl] at h; cases h
      · rw [show pyFloat? "NULL" = none from rfl] at h; cases h
    rw [if_neg h1, h]
  · intro s hs h
    show (if s = "" then Except.ok none
        else match pyFloat? s with
          | some q => Except.ok (some q)
          | none => Except.error ()) = Except.error ()
    rw [if_neg hs, h]

/-- Witness for C1 at concrete inputs: `"abc"` fails the numeric parse and
is stored as null by the strict coercion; `"20"` parses and is stored as
exactly its parsed value. -/
theorem yearCell_null_policy_witness :
    (pyFloat? "abc" = none)
    ∧ coerceCellStrict (Cell.str "abc") = none
    ∧ (pyFloat? "20" = some 20)
    ∧ coerceCellStrict (Cell.str "20") = some 20 :=
  ⟨by decide, yearCell_null_policy.2.2.2.1 "abc" (by decide),
   by decide, yearCell_null_policy.2.2.2.2.1 "20" 20 (by decide)⟩

/-- Claim C6: every produced document's year-key list is exactly the list of
CSV columns that are all-digit strings whose value lies in [2000, 2024]; a
column failing that test never appears as a year key of any output
document. -/
theorem year_key_set_spec :
    ∀ (csv : CSVData) (d : Document), d ∈ transform csv →
      d.years.map Prod.fst = yearColumns csv.columns
      ∧ ∀ col : String, isYearCol col = false → col ∉ d.years.map Prod.fst := by
  intro csv d hd
  rcases List.mem_filterMap.mp hd with ⟨r, _, hnorm⟩
  unfold normalizeRow at hnorm
  cases hfind : INDICATOR_MAPPING.find? (fun p => p.1 == r.indicator) with
  | none => rw [hfind] at hnorm; cases hnorm
  | some p =>
      rw [hfind] at hnorm
      injection hnorm with hdoc
      subst hdoc
      have hkeys : ((yearColumns csv.columns).map
          (fun col => (col, coerceCellStrict (getCell r col)))).map Prod.fst
          = yearColumns csv.columns := by
        rw [List.map_map]; exact List.map_id' _
      refine ⟨hkeys, ?_⟩
      intro col hcol hmem
      rw [hkeys] at hmem
      have := (List.mem_filter.mp hmem).2
      rw [hcol] at this
      cases this

/-- Witness for C6 on a concrete CSV: the produced document's year keys are
exactly the qualifying columns `["2000"]`, and neither the non-numeric
column `"abc"` nor the out-of-range column `"1999"` appears among them. -/
theorem year_key_set_spec_witness :
    ((transform csvW).getD 0 dPrior ∈ transform csvW)
    ∧ ((transform csvW).getD 0 dPrior).years.map Prod.fst = yearColumns csvW.columns
    ∧ (isYearCol "abc" = false)
    ∧ "abc" ∉ ((transform csvW).getD 0 dPrior).years.map Prod.fst
    ∧ (isYearCol "1999" = false)
    ∧ "1999" ∉ ((transform csvW).getD 0 dPrior).years.map Prod.fst :=
  ⟨by decide,
   (year_key_set_spec csvW ((transform csvW).getD 0 dPrior) (by decide)).1,
   by decide,
   (year_key_set_spec csvW ((transform csvW).getD 0 dPrior) (by decide)).2 "abc" (by decide),
   by decide,
   (year_key_set_spec csvW ((transform csvW).getD 0 dPrior) (by decide)).2 "1999" (by decide)⟩

/-- Claim C7: under the strict policy a row whose indicator is not an exact
key of the canonical indicator table produces no document, and on the
two-row scenario CSV exactly one document, Kenya's, is produced. -/
theorem strict_unmapped_dropped :
    (∀ (columns : List String) (r : Row),
        r.indicator ∉ INDICATOR_MAPPING.map Prod.fst → normalizeRow columns r = none)
    ∧ (transform csvScenario).map Document.country = ["Kenya"]
    ∧ (transform csvScenario).length = 1 := by
  refine ⟨?_, by decide, by decide⟩
  intro columns r h
  unfold normalizeRow
  have hnone : INDICATOR_MAPPING.find? (fun p => p.1 == r.indicator) = none := by
    rw [List.find?_eq_none]
    intro p hp hbeq
    have hpi : p.1 = r.indicator := by simpa using hbeq
    exact h (List.mem_map.mpr ⟨p, hp, hpi⟩)
  rw [hnone]

/-- Witness for C7 at a concrete row: the indicator `"Not Mapped"` is not a
key of the table and its row is dropped by the normalizer. -/
theorem strict_unmapped_dropped_witness :
    ("Not Mapped" ∉ INDICATOR_MAPPING.map Prod.fst)
    ∧ normalizeRow ["Country", "Indicator", "2000"]
        { country := "Unknownland", indicator := "Not Mapped", cells := [] } = none :=
  ⟨by decide,
   strict_unmapped_dropped.1 ["Country", "Indicator", "2000"]
     { country := "Unknownland", indicator := "Not Mapped", cells := [] } (by decide)⟩

/-! ## Claim theorems: store phase -/

/-- Counterexample to claim C2 as stated: on a CSV whose transform produces
zero documents, the strict run issues no delete, so a prior document
survives and the final stored set depends on the store's prior contents,
not on the input CSV alone. -/
theorem reload_not_prior_independent :
    transform csvUnmapped = []
    ∧ runStorePhase [dPrior] (transform csvUnmapped) = [dPrior]
    ∧ runStorePhase [] (transform csvUnmapped) = []
    ∧ runStorePhase [dPrior] (transform csvUnmapped)
        ≠ runStorePhase [] (transform csvUnmapped) := by
  refine ⟨by decide, by decide, by decide, by decide⟩

/-- Claim C2 as amended: in the strict entry point a run whose transform
produces at least one document deletes all prior documents and
bulk-inserts the new set, so its final stored set equals the transformed
set regardless of prior contents; a run producing zero documents leaves
the store untouched, and the lenient entry point inserts without deleting
(final contents are the prior contents followed by the new set). -/
theorem reload_semantics :
    (∀ prior docs : List Document, docs ≠ [] → runStorePhase prior docs = docs)
    ∧ (∀ prior docs : List Document, runStorePhaseLenient prior docs = prior ++ docs) := by
  constructor
  · intro prior docs h
    unfold runStorePhase storeOps
    have he : docs.isEmpty = false := by cases docs with | nil => exact absurd rfl h | cons a t => rfl
    rw [he]
    simp only [Bool.false_eq_true, if_false, List.foldl_cons]
    rw [show applyOp prior StoreOp.deleteAll = [] from rfl,
       foldl_insertMany, chunks50_flatten]
    rfl
  · intro prior docs
    rfl

/-- Witness for C2 (amended) at concrete inputs: a non-empty transformed set
replaces a non-empty prior store. -/
theorem reload_semantics_witness :
    ([dNew] ≠ ([] : List Document)) ∧ runStorePhase [dPrior] [dNew] = [dNew] :=
  ⟨by decide, reload_semantics.1 [dPrior] [dNew] (by decide)⟩

/-- Claim C9: when the strict transform produces zero documents, step 6 of
`main` issues no store operation at all — no delete, no insert — and the
collection keeps exactly its prior contents. -/
theorem empty_transform_frame :
    ∀ (prior : List Document) (csv : CSVData), transform csv = [] →
      storeOps (transform csv) = [] ∧ runStorePhase prior (transform csv) = prior := by
  intro prior csv h
  rw [h]
  exact ⟨rfl, rfl⟩

/-- Witness for C9 at concrete inputs: the unmapped-indicator CSV transforms
to no documents and a one-document prior store is left untouched. -/
theorem empty_transform_frame_witness :
    (transform csvUnmapped = [])
    ∧ storeOps (transform csvUnmapped) = []
    ∧ runStorePhase [dPrior] (transform csvUnmapped) = [dPrior] :=
  ⟨by decide,
   (empty_transform_frame [dPrior] csvUnmapped (by decide)).1,
   (empty_transform_frame [dPrior] csvUnmapped (by decide)).2⟩

/-! ## Helper lemmas: validator -/

theorem validate_year_coverage (data : List Document) :
    (validate data).year_coverage =
      if data.isEmpty then []
      else requiredYears.map (fun y =>
        (y, YearCov.mk data.length (countNonNull y data) (pct (countNonNull y data) data.length))) := by
  unfold validate
  cases h : data.isEmpty <;> simp [h]

theorem validate_metrics_coverage (data : List Document) :
    (validate data).metrics_coverage =
      if data.isEmpty then []
      else ((data.map Document.metric).dedup).map (fun m =>
        (m, MetricCov.mk AFRICAN_COUNTRIES.length
          (data.countP (fun r => r.metric == m))
          (pct (data.countP (fun r => r.metric == m)) AFRICAN_COUNTRIES.length))) := by
  unfold validate
  cases h : data.isEmpty <;> simp [h]

theorem validate_score (data : List Document) :
    (validate data).completeness_score =
      if data.isEmpty then 0
      else if totalPossibleDataPoints data > 0
        then pct (availableDataPoints data) (totalPossibleDataPoints data)
        else 0 := by
  unfold validate
  cases h : data.isEmpty <;> simp [h]

theorem pct_eq_div (count total : Nat) :
    pct count total = round2 ((count : ℚ) / (total : ℚ) * 100) := by
  unfold pct
  congr 1
  rw [Rat.mkRat_eq_div]
  push_cast
  ring

theorem sum_map_add_nat {α : Type} (f g : α → Nat) :
    ∀ l : List α, (l.map (fun a => f a + g a)).sum = (l.map f).sum + (l.map g).sum
  | [] => rfl
  | a :: t => by
      simp only [List.map_cons, List.sum_cons, sum_map_add_nat f g t]
      omega

theorem sum_ite_one {α : Type} (p : α → Bool) :
    ∀ l : List α, (l.map (fun a => if p a then 1 else 0)).sum = (l.filter p).length
  | [] => rfl
  | a :: t => by
      by_cases h : p a <;>
        simp [List.filter_cons, h, sum_ite_one p t, Nat.add_comm]

theorem availableDataPoints_eq_claim :
    ∀ data : List Document, availableDataPoints data = claimDataPoints data
  | [] => by decide
  | d :: t => by
      have h1 : ∀ y : String,
          countNonNull y (d :: t) = (if docYearNonNull d y then 1 else 0) + countNonNull y t := by
        intro y
        unfold countNonNull
        rw [List.countP_cons]
        omega
      unfold availableDataPoints claimDataPoints
      rw [List.map_congr_left (fun y _ => h1 y), sum_map_add_nat, sum_ite_one,
        List.map_cons, List.sum_cons]
      have ht := availableDataPoints_eq_claim t
      unfold availableDataPoints claimDataPoints at ht
      have heta : List.filter (docYearNonNull d) requiredYears
          = List.filter (fun y => docYearNonNull d y) requiredYears := rfl
      rw [heta]
      omega

theorem docYearNonNull_extend (d : Document) (y : String) (v : Option ℚ)
    (y' : String) (h : y' ≠ y) :
    docYearNonNull (extendYears y v d) y' = docYearNonNull d y' := by
  unfold docYearNonNull extendYears
  simp only [List.find?_append]
  cases hf : d.years.find? (fun p => p.1 == y') with
  | some p => simp
  | none =>
      have hy : ((y, v).1 == y') = false := by
        simp only [beq_eq_false_iff_ne, ne_eq]
        exact fun hcontra => h hcontra.symm
      simp [List.find?, hy]

theorem countNonNull_extend (data : List Document) (y : String) (v : Option ℚ)
    (y' : String) (h : y' ≠ y) :
    countNonNull y' (data.map (extendYears y v)) = countNonNull y' data := by
  unfold countNonNull
  rw [List.countP_map]
  congr 1
  funext d
  simp only [Function.comp_apply]
  exact docYearNonNull_extend d y v y' h

/-! ## Claim theorems: validator -/

/-- Counterexample to claim C3 as stated over both cited code sites: the
lenient validator raises `ZeroDivisionError` on the empty batch, because
the division by `len(data)` inside its year loop is unguarded. -/
theorem lenientValidate_empty_raises :
    validateLenient ([] : List Document) = Except.error () := rfl

/-- Claim C3 as amended: on the empty batch the strict validator returns its
initial report — completeness score 0, zero documents — through the early
`if not data` guard, with every division unreached; the lenient validator
instead raises `ZeroDivisionError` in its year loop. -/
theorem empty_batch_score :
    (validate ([] : List Document)).completeness_score = 0
    ∧ (validate ([] : List Document)).total_documents = 0
    ∧ validateLenient ([] : List Document) = Except.error () :=
  ⟨rfl, rfl, rfl⟩

/-- Claim C4: for every non-empty batch the completeness score equals
`round(n / (total_documents * num_required_years) * 100, 2)` where `n`
counts, over all documents and all required years, the year keys present
with a non-null value. -/
theorem completeness_score_formula :
    ∀ data : List Document, data ≠ [] →
      (validate data).completeness_score =
        round2 ((claimDataPoints data : ℚ)
          / ((data.length : ℚ) * (requiredYears.length : ℚ)) * 100) := by
  intro data h
  rw [validate_score]
  have he : data.isEmpty = false := by
    cases data with | nil => exact absurd rfl h | cons a t => rfl
  rw [he, if_neg Bool.false_ne_true]
  have hpos : totalPossibleDataPoints data > 0 := by
    unfold totalPossibleDataPoints
    have h1 : 0 < data.length := List.length_pos.mpr h
    have h2 : requiredYears.length = 23 := by decide
    rw [h2]; omega
  rw [if_pos hpos, pct_eq_div, availableDataPoints_eq_claim]
  unfold totalPossibleDataPoints
  congr 1
  push_cast
  ring

/-- Witness for C4 on a concrete one-document batch. -/
theorem completeness_score_formula_witness :
    ([dPrior] ≠ ([] : List Document))
    ∧ (validate [dPrior]).completeness_score =
        round2 ((claimDataPoints [dPrior] : ℚ)
          / (([dPrior].length : ℚ) * (requiredYears.length : ℚ)) * 100) :=
  ⟨by decide, completeness_score_formula [dPrior] (by decide)⟩

/-- Claim C8: every reported metric's coverage percentage equals
`round(count_of_docs_with_the_metric / registry_size * 100, 2)` — the
denominator is the fixed registry size — and a metric whose document count
equals the registry size is reported at exactly 100. -/
theorem metric_coverage_formula :
    ∀ (data : List Document) (m : String) (mc : MetricCov),
      (m, mc) ∈ (validate data).metrics_coverage →
      mc.coverage_percentage =
        round2 ((data.countP (fun r => r.metric == m) : ℚ)
          / (AFRICAN_COUNTRIES.length : ℚ) * 100)
      ∧ (data.countP (fun r => r.metric == m) = AFRICAN_COUNTRIES.length →
          mc.coverage_percentage = 100) := by
  intro data m mc hmem
  rw [validate_metrics_coverage] at hmem
  by_cases h : data.isEmpty = true
  · rw [if_pos h] at hmem
    cases hmem
  · rw [if_neg h] at hmem
    rcases List.mem_map.mp hmem with ⟨m₀, hm₀, heq⟩
    rw [Prod.mk.injEq] at heq
    obtain ⟨rfl, rfl⟩ := heq
    constructor
    · exact pct_eq_div _ _
    · intro hcount
      show pct (data.countP (fun r => r.metric == m₀)) AFRICAN_COUNTRIES.length = 100
      rw [hcount]
      decide

/-- Witness for C8 on the batch with one document per registry country, all
carrying the metric `"Electricity Access Rate"`: its reported coverage is
exactly 100. -/
theorem metric_coverage_formula_witness :
    (("Electricity Access Rate", MetricCov.mk 54 54 100) ∈ (validate batch54).metrics_coverage)
    ∧ (batch54.countP (fun r => r.metric == "Electricity Access Rate") = AFRICAN_COUNTRIES.length)
    ∧ (MetricCov.mk 54 54 100).coverage_percentage = 100 :=
  ⟨by decide, by decide,
   (metric_coverage_formula batch54 "Electricity Access Rate" (MetricCov.mk 54 54 100)
      (by decide)).2 (by decide)⟩

/-- Claim C10: the strict validator's required year range is exactly the 23
strings `"2000"` to `"2022"`; on a non-empty batch `year_coverage` has
exactly those keys in that order; the completeness denominator is
`total_documents * 23`; and values stored under any year key outside the
range — `"2023"` and `"2024"` included — change neither `year_coverage`
nor the completeness score. -/
theorem required_year_range_spec :
    requiredYears = ["2000", "2001", "2002", "2003", "2004", "2005", "2006", "2007",
      "2008", "2009", "2010", "2011", "2012", "2013", "2014", "2015", "2016", "2017",
      "2018", "2019", "2020", "2021", "2022"]
    ∧ requiredYears.length = 23
    ∧ (∀ data : List Document, totalPossibleDataPoints data = data.length * 23)
    ∧ (∀ data : List Document, data ≠ [] →
        (validate data).year_coverage.map Prod.fst = requiredYears)
    ∧ (∀ (data : List Document) (y : String) (v : Option ℚ), y ∉ requiredYears →
        (validate (data.map (extendYears y v))).year_coverage = (validate data).year_coverage
        ∧ (validate (data.map (extendYears y v))).completeness_score
            = (validate data).completeness_score) := by
  refine ⟨by decide, by decide, ?_, ?_, ?_⟩
  · intro data
    unfold totalPossibleDataPoints
    rw [show requiredYears.length = 23 from by decide]
  · intro data h
    rw [validate_year_coverage]
    have he : data.isEmpty = false := by
      cases data with | nil => exact absurd rfl h | cons a t => rfl
    rw [he, if_neg Bool.false_ne_true, List.map_map]
    exact List.map_id' _
  · intro data y v hy
    have hne : ∀ y' ∈ requiredYears, y' ≠ y := fun y' hmem heq => hy (heq ▸ hmem)
    cases data with
    | nil => exact ⟨rfl, rfl⟩
    | cons d t =>
        have hcnt : ∀ y' ∈ requiredYears,
            countNonNull y' ((d :: t).map (extendYears y v)) = countNonNull y' (d :: t) :=
          fun y' hmem => countNonNull_extend (d :: t) y v y' (hne y' hmem)
        have hav : availableDataPoints ((d :: t).map (extendYears y v))
            = availableDataPoints (d :: t) := by
          unfold availableDataPoints
          exact congrArg List.sum (List.map_congr_left (fun y' hmem => hcnt y' hmem))
        have htp : totalPossibleDataPoints ((d :: t).map (extendYears y v))
            = totalPossibleDataPoints (d :: t) := by
          unfold totalPossibleDataPoints
          rw [List.length_map]
        have he1 : ((d :: t).map (extendYears y v)).isEmpty = false := rfl
        have he2 : (d :: t).isEmpty = false := rfl
        constructor
        · rw [validate_year_coverage, validate_year_coverage, he1, he2,
            if_neg Bool.false_ne_true, if_neg Bool.false_ne_true]
          apply List.map_congr_left
          intro y' hmem
          rw [List.length_map, hcnt y' hmem]
        · rw [validate_score, validate_score, he1, he2,
            if_neg Bool.false_ne_true, if_neg Bool.false_ne_true, htp, hav]

/-- Witness for C10 on a concrete one-document batch and the out-of-range
year `"2023"`. -/
theorem required_year_range_spec_witness :
    ([dPrior] ≠ ([] : List Document))
    ∧ (validate [dPrior]).year_coverage.map Prod.fst = requiredYears
    ∧ ("2023" ∉ requiredYears)
    ∧ (validate ([dPrior].map (extendYears "2023" (some 5)))).completeness_score
        = (validate [dPrior]).completeness_score :=
  ⟨by decide, required_year_range_spec.2.2.2.1 [dPrior] (by decide),
   by decide,
   (required_year_range_spec.2.2.2.2 [dPrior] "2023" (some 5) (by decide)).2⟩
